import Mathlib

/-!
Shallow embedding of the streaming parallel map from `executors/stream.py`
(the two-queue variant: input-args channel plus future-handle channel) and
from `streamexecutors/stream.py` (the single-queue variant in which the
input-consuming thread also submits).

Modelling conventions, fixed for the whole file:

* Python exception values are the type `Exc`; any exception value is a
  channel sentinel, mirroring the comment in both sources ("Any value of
  type BaseException is treated as a sentinel").
* A backend future is its resolved outcome together with the completion
  timestamp the backend chooses; `Future.result` with deadline `none`
  ignores the timestamp, while with `some d` it raises TimeoutError when
  the call completes after `d`.  The sources recompute the remaining
  budget from a fixed absolute end time before each blocking wait; the
  embedding keeps the absolute deadline fixed, which is all the claims
  below exercise (they use `timeout=None`).
* `raise e` inside a generator ends the iteration normally when `e` is
  StopIteration and propagates `e` to the caller otherwise — the
  generator semantics of the Python these sources target (neither file
  imports `generator_stop`).
* Concurrency is embedded by letting each channel reader consume, in
  order, the sequence of items its peer writes, and by an observation
  oracle `obs : Nat → Bool` giving the value the stage sees each time it
  polls the shared `cancel` flag.  The composed runs below fix the
  admissible interleaving in which every poll observes `false`; every
  write to the flag a run performs is still recorded in `cancelWrites`.
* Argument tuples drawn by zipping the input sequences are a single type
  `α`; the mapped callable is `g : α → β` (or an `Except` for a callable
  that can raise).
-/

namespace Executors

deriving instance DecidableEq for Except

/-- Python exception values used by the pipeline: StopIteration (normal
input exhaustion), the module's CancelledError, TimeoutError, and any
other exception identified by a numeric code. -/
inductive Exc where
  | stopIteration
  | cancelledError
  | timeoutError
  | code (n : Nat)
deriving DecidableEq, Repr

/-- An item in the input-args channel: an argument tuple or an exception
sentinel. -/
inductive ChanItem (α : Type) where
  | arg (a : α)
  | exc (e : Exc)
deriving DecidableEq, Repr

/-- A backend future: the resolved outcome of the submitted call and the
completion timestamp the backend chooses for it. -/
structure Future (β : Type) where
  val : Except Exc β
  doneAt : Nat
deriving DecidableEq, Repr

/-- `Future.result(timeout)`: with no deadline, block until done and
return the outcome; with a deadline, raise TimeoutError when the call
completes after it. -/
def Future.result (f : Future β) (deadline : Option Nat) : Except Exc β :=
  match deadline with
  | none => f.val
  | some d => if f.doneAt ≤ d then f.val else Except.error Exc.timeoutError

/-- An item in the future-handle channel: a future or an exception
sentinel. -/
inductive FItem (β : Type) where
  | fut (f : Future β)
  | exc (e : Exc)
deriving DecidableEq, Repr

/-- The cancel-flag observation oracle of a run in which no poll ever
sees the flag set. -/
def obsFalse : Nat → Bool := fun _ => false

/-- executors/stream.py lines 65-80, `consume_inputs`: each iteration
polls `cancel` (writing a CancelledError sentinel and stopping if set),
then advances the zipped iterators — producing the next argument tuple,
or the exception `fin` that ends the source (StopIteration for normal
exhaustion, anything else for an input error), which is written as the
sentinel. -/
def consume_inputs (obs : Nat → Bool) : Nat → List α → Exc → List (ChanItem α)
  | k, xs, fin =>
    if obs k then [ChanItem.exc Exc.cancelledError]
    else
      match xs with
      | [] => [ChanItem.exc fin]
      | a :: rest => ChanItem.arg a :: consume_inputs obs (k + 1) rest fin

/-- executors/stream.py lines 102-103: the drain loop that reads the
input channel until it observes a sentinel; returns how many items it
reads (sentinel included). -/
def submit_drain : List (ChanItem α) → Nat
  | [] => 0
  | ChanItem.exc _ :: _ => 1
  | ChanItem.arg _ :: rest => 1 + submit_drain rest

/-- What one run of the submission stage did: the items it wrote to the
future-handle channel, the number of items it read from the input
channel, and whether it assigned `cancel = True`. -/
structure SubmitOut (β : Type) where
  out : List (FItem β)
  consumed : Nat
  setCancel : Bool
deriving DecidableEq, Repr

/-- executors/stream.py lines 83-103, `submit_inputs`: each iteration
polls `cancel` (writing a CancelledError sentinel, then draining, if
set), then reads the input channel.  A sentinel read is forwarded
downstream and the stage returns (no drain needed — the sentinel was
already read).  Otherwise the tuple is submitted: on success the future
goes downstream; on failure the stage sets `cancel`, writes the
exception downstream as the sentinel, and drains the rest of the input
channel.  The `[]` case is unreachable under the sentinel protocol (a
real `get` would block). -/
def submit_inputs (submit : Nat → α → Except Exc (Future β)) (obs : Nat → Bool) :
    Nat → List (ChanItem α) → SubmitOut β
  | k, inbuf =>
    if obs k then
      { out := [FItem.exc Exc.cancelledError], consumed := submit_drain inbuf,
        setCancel := false }
    else
      match inbuf with
      | [] => { out := [], consumed := 0, setCancel := false }
      | ChanItem.exc e :: _ =>
        { out := [FItem.exc e], consumed := 1, setCancel := false }
      | ChanItem.arg a :: rest =>
        match submit k a with
        | Except.ok f =>
          let r := submit_inputs submit obs (k + 1) rest
          { out := FItem.fut f :: r.out, consumed := 1 + r.consumed,
            setCancel := r.setCancel }
        | Except.error e =>
          { out := [FItem.exc e], consumed := 1 + submit_drain rest,
            setCancel := true }

/-- What iterating the result generator to the end does from the
caller's point of view: ends normally, raises an exception, or blocks
(the last only on channel contents that violate the sentinel protocol). -/
inductive Outcome where
  | normalEnd
  | raised (e : Exc)
  | blocked
deriving DecidableEq, Repr

/-- `raise e` inside a generator body: StopIteration ends the iteration
normally; any other exception propagates to the caller. -/
def raiseInGen (e : Exc) : Outcome :=
  match e with
  | Exc.stopIteration => Outcome.normalEnd
  | e => Outcome.raised e

/-- The cleanup drain (executors/stream.py lines 110-115,
streamexecutors/stream.py lines 124-129): read the future-handle
channel, calling `cancel()` on every future, until a sentinel; returns
the number of futures cancelled and the channel contents left after the
sentinel. -/
def drainCancel : List (FItem β) → Nat × List (FItem β)
  | [] => (0, [])
  | FItem.exc _ :: rest => (0, rest)
  | FItem.fut _ :: rest =>
    let p := drainCancel rest
    (p.1 + 1, p.2)

/-- What iterating the result generator produced: the values yielded
after the priming `None`, the final outcome, whether cleanup ran, and
how many futures cleanup cancelled. -/
structure ProduceOut (β : Type) where
  yields : List β
  outcome : Outcome
  cleanupRan : Bool
  drained : Nat
deriving DecidableEq, Repr

/-- executors/stream.py lines 123-137, the main loop of
`produce_results`, driven by a caller that keeps iterating: a sentinel
read is re-raised at the call site (StopIteration ending the iteration
normally); a future is resolved against the remaining budget — on
success the value is yielded, on failure `cleanup` runs (sets `cancel`,
drains the future channel cancelling futures, re-raises the failure). -/
def produce_results_go (deadline : Option Nat) : List (FItem β) → ProduceOut β
  | [] => { yields := [], outcome := Outcome.blocked, cleanupRan := false, drained := 0 }
  | FItem.exc e :: _ =>
    { yields := [], outcome := raiseInGen e, cleanupRan := false, drained := 0 }
  | FItem.fut f :: rest =>
    match f.result deadline with
    | Except.ok v =>
      let r := produce_results_go deadline rest
      { yields := v :: r.yields, outcome := r.outcome, cleanupRan := r.cleanupRan,
        drained := r.drained }
    | Except.error e =>
      { yields := [], outcome := Outcome.raised e, cleanupRan := true,
        drained := (drainCancel rest).1 }

/-- One whole `map` invocation from the caller's point of view: the
elements the returned iterator yields (`none` would be the Python
`None`), the final outcome, and the values of every assignment made to
the shared `cancel` flag during the run. -/
structure MapRun (β : Type) where
  mapYields : List (Option β)
  outcome : Outcome
  cancelWrites : List Bool
deriving DecidableEq, Repr

/-- executors/stream.py `StreamExecutor.map` (lines 42-149) composed:
`consume_inputs` fills the input channel, `submit_inputs` turns it into
the future channel, `produce_results` yields the dummy `None` (line
120) and then the results; `map` consumes the dummy with `next(result)`
(line 148), so the iterator handed to the caller yields the tail. -/
def streamMapExec (submit : Nat → α → Except Exc (Future β)) (xs : List α) (fin : Exc)
    (deadline : Option Nat) : MapRun β :=
  let ibuf := consume_inputs obsFalse 0 xs fin
  let s := submit_inputs submit obsFalse 0 ibuf
  let p := produce_results_go deadline s.out
  { mapYields := (Option.none :: p.yields.map Option.some).tail
    outcome := p.outcome
    cancelWrites := (cond s.setCancel [true] []) ++ (cond p.cleanupRan [true] []) }

/-- streamexecutors/stream.py lines 90-111, `consume_inputs`: each
iteration polls `cancel`, then advances the zipped iterators (writing
the ending exception as the sentinel), then submits the tuple — a
submission failure is forwarded downstream as the sentinel and the
stage returns without touching the `cancel` flag; otherwise the future
is written to the single future channel. -/
def sexec_consume_inputs (submit : Nat → α → Except Exc (Future β)) (obs : Nat → Bool) :
    Nat → List α → Exc → List (FItem β)
  | k, xs, fin =>
    if obs k then [FItem.exc Exc.cancelledError]
    else
      match xs with
      | [] => [FItem.exc fin]
      | a :: rest =>
        match submit k a with
        | Except.error e => [FItem.exc e]
        | Except.ok f => FItem.fut f :: sexec_consume_inputs submit obs (k + 1) rest fin

/-- The state the streamexecutors cleanup reads and writes: the shared
`cancel` flag and the future-channel contents still unread. -/
structure CleanupView (β : Type) where
  cancel : Bool
  fbuf : List (FItem β)
deriving DecidableEq, Repr

/-- What one invocation of the streamexecutors cleanup did: the state it
left, how many futures it cancelled, and the exception it re-raised (if
any). -/
structure CleanupOut (β : Type) where
  state : CleanupView β
  cancelled : Nat
  raisedExc : Option Exc
deriving DecidableEq, Repr

/-- streamexecutors/stream.py lines 117-132, `cleanup`: try to acquire
the cancellation lock without blocking; only when it is acquired and
the flag is still clear does the routine set the flag, drain the future
channel cancelling futures up to the sentinel, and re-raise
`last_exception` if one is set; in every other case it does nothing. -/
def sexec_cleanup (lockAcquired : Bool) (lastException : Option Exc) (s : CleanupView β) :
    CleanupOut β :=
  if lockAcquired = true ∧ s.cancel = false then
    let p := drainCancel s.fbuf
    { state := { cancel := true, fbuf := p.2 }, cancelled := p.1,
      raisedExc := lastException }
  else
    { state := s, cancelled := 0, raisedExc := none }

/-- executors/stream.py lines 107-116, `cleanup`: no lock and no flag
guard — whatever the current value of the `cancel` flag, the routine
sets it, drains the future-handle channel cancelling every future up to
the sentinel, and re-raises `exc` unconditionally. -/
def exec_cleanup (exc : Exc) (s : CleanupView β) : CleanupOut β :=
  let p := drainCancel s.fbuf
  { state := { cancel := true, fbuf := p.2 }, cancelled := p.1,
    raisedExc := some exc }

/-- streamexecutors/stream.py lines 136-157, the main loop of
`produce_results`, driven by a caller that keeps iterating: a sentinel
read is re-raised at the call site; a future is resolved — on failure
the loop stores the exception in `last_exception` and calls `cleanup`,
which (lock free, flag still clear, as in a single-trigger run) drains
the channel and re-raises the stored exception. -/
def sexec_produce_results_go (deadline : Option Nat) : List (FItem β) → ProduceOut β
  | [] => { yields := [], outcome := Outcome.blocked, cleanupRan := false, drained := 0 }
  | FItem.exc e :: _ =>
    { yields := [], outcome := raiseInGen e, cleanupRan := false, drained := 0 }
  | FItem.fut f :: rest =>
    match f.result deadline with
    | Except.ok v =>
      let r := sexec_produce_results_go deadline rest
      { yields := v :: r.yields, outcome := r.outcome, cleanupRan := r.cleanupRan,
        drained := r.drained }
    | Except.error e =>
      let c := sexec_cleanup true (some e) { cancel := false, fbuf := rest }
      { yields := []
        outcome := match c.raisedExc with
          | some x => Outcome.raised x
          | none => Outcome.blocked
        cleanupRan := true
        drained := c.cancelled }

/-- streamexecutors/stream.py `StreamExecutor.map` (lines 62-164)
composed: the worker thread fills the single future channel,
`produce_results` yields the dummy `None` (line 138) and then the
results; `map` consumes the dummy with `next(result)` (line 163). -/
def sexec_streamMap (submit : Nat → α → Except Exc (Future β)) (xs : List α) (fin : Exc)
    (deadline : Option Nat) : MapRun β :=
  let fbuf := sexec_consume_inputs submit obsFalse 0 xs fin
  let p := sexec_produce_results_go deadline fbuf
  { mapYields := (Option.none :: p.yields.map Option.some).tail
    outcome := p.outcome
    cancelWrites := cond p.cleanupRan [true] [] }

/-- executors/stream.py lines 47-48: `buffer_size=None` becomes `-1`;
every other value is passed to `Queue(maxsize=buffer_size)` unchanged
(there is no further validation in this variant). -/
def execMapBuffer (buffer_size : Option Int) : Int :=
  match buffer_size with
  | none => -1
  | some b => b

/-- `queue.Queue(maxsize)`: a maxsize of zero or less means the queue is
unbounded. -/
def queueUnbounded (maxsize : Int) : Bool := maxsize ≤ 0

/-- executors/stream.py line 62: the future-handle channel is
`Queue(10)`, whatever `buffer_size` was passed to `map`. -/
def execFuturesBufferCapacity (buffer_size : Option Int) : Int := 10

/-- streamexecutors/stream.py lines 69-72: `buffer_size=None` becomes
`-1`; a zero or negative value raises
`ValueError('buffer_size must be a positive number')`. -/
def sexecMapBuffer (buffer_size : Option Int) : Except String Int :=
  match buffer_size with
  | none => Except.ok (-1)
  | some b =>
    if b ≤ 0 then Except.error ("buffer_size must be a positive number")
    else Except.ok b

/-- streamexecutors/stream.py line 87: the single future channel is
`Queue(maxsize=buffer_size)` with the buffer size as validated by lines
69-72. -/
def sexecFutureBufferCapacity (buffer_size : Option Int) : Except String Int :=
  sexecMapBuffer buffer_size

/-- streamexecutors/stream.py lines 169-176,
`StreamProcessPoolExecutor.map`: when `buffer_size` is not None it is
floor-divided in place by `max(1, chunksize)`; then `chunksize` is
validated; the result is the `buffer_size` handed to the base
`StreamExecutor.map`. -/
def processMapBuffer (buffer_size : Option Int) (chunksize : Int) :
    Except String (Option Int) :=
  let bs : Option Int :=
    match buffer_size with
    | none => none
    | some b => some (Int.fdiv b (max 1 chunksize))
  if chunksize < 1 then Except.error ("chunksize must be >= 1.")
  else Except.ok bs

/-- The externally visible actions of the streamexecutors `map` setup
path (lines 62-163) in the order they would happen.  `map` itself never
reads an element of the input sequences: `iter(...)` on line 74 creates
iterators without advancing them, and advancing happens only in the
worker thread. -/
inductive SetupEffect where
  | inputElementRead
  | threadStarted
  | generatorPrimed
deriving DecidableEq, Repr

/-- streamexecutors/stream.py `map`, lines 62-163, as the effects the
setup path performs together with the error it raises, if any: the
callable check (lines 62-63) runs before everything else, then the
buffer validation (lines 69-72); only when both pass does the worker
thread start (lines 159-160) and the generator get primed (line 163). -/
def sexecMapSetup (fnCallable : Bool) (buffer_size : Option Int) :
    List SetupEffect × Option String :=
  if fnCallable = false then ([], some ("fn argument must be a callable"))
  else
    match sexecMapBuffer buffer_size with
    | Except.error m => ([], some m)
    | Except.ok _ => ([SetupEffect.threadStarted, SetupEffect.generatorPrimed], none)

/-- A thread-backend submit oracle that always succeeds: the future for
call `k` on tuple `a` resolves to `g a` and completes at the
backend-chosen time `sched k`. -/
def okSubmit (g : α → β) (sched : Nat → Nat) : Nat → α → Except Exc (Future β) :=
  fun k a => Except.ok { val := Except.ok (g a), doneAt := sched k }

/-- A submit oracle that raises `e` exactly at call `m` and behaves like
`okSubmit g sched` at every other call. -/
def failAtSubmit (g : α → β) (sched : Nat → Nat) (m : Nat) (e : Exc) :
    Nat → α → Except Exc (Future β) :=
  fun k a =>
    if k = m then Except.error e
    else Except.ok { val := Except.ok (g a), doneAt := sched k }

/-- The future-channel payloads the submission stage writes for the
argument tuples `xs` when submission starts at call number `k` and
always succeeds. -/
def okFutures (g : α → β) (sched : Nat → Nat) : Nat → List α → List (FItem β)
  | _, [] => []
  | k, a :: rest =>
    FItem.fut { val := Except.ok (g a), doneAt := sched k } :: okFutures g sched (k + 1) rest

/-- Number of false-to-true steps in a flag history. -/
def countFT : List Bool → Nat
  | a :: b :: rest => (if a = false ∧ b = true then 1 else 0) + countFT (b :: rest)
  | _ => 0

/-- Number of true-to-false steps in a flag history. -/
def countTF : List Bool → Nat
  | a :: b :: rest => (if a = true ∧ b = false then 1 else 0) + countTF (b :: rest)
  | _ => 0

/-- The successive values the shared `cancel` flag takes during a run:
its initial value `false` followed by the value of every assignment. -/
def cancelHistory (r : MapRun β) : List Bool := false :: r.cancelWrites

/-! Run lemmas: what each stage does on a failure-free run, and what the
submission stage does when the backend rejects a submission. -/

theorem consume_inputs_ok (xs : List α) (fin : Exc) :
    ∀ k, consume_inputs obsFalse k xs fin = xs.map ChanItem.arg ++ [ChanItem.exc fin] := by
  induction xs with
  | nil => intro k; simp [consume_inputs, obsFalse]
  | cons a rest ih => intro k; simp [consume_inputs, obsFalse, ih]

theorem submit_drain_args (xs : List α) (fin : Exc) :
    submit_drain (xs.map ChanItem.arg ++ [ChanItem.exc fin]) = xs.length + 1 := by
  induction xs with
  | nil => simp [submit_drain]
  | cons a rest ih => simp [submit_drain, ih]; omega

theorem submit_inputs_ok (g : α → β) (sched : Nat → Nat) (xs : List α) (fin : Exc) :
    ∀ k, submit_inputs (okSubmit g sched) obsFalse k
        (xs.map ChanItem.arg ++ [ChanItem.exc fin]) =
      { out := okFutures g sched k xs ++ [FItem.exc fin], consumed := xs.length + 1,
        setCancel := false } := by
  induction xs with
  | nil => intro k; simp [submit_inputs, obsFalse, okFutures]
  | cons a rest ih =>
    intro k
    simp [submit_inputs, obsFalse, okSubmit, okFutures, ih]
    omega

theorem produce_results_go_ok (g : α → β) (sched : Nat → Nat) (xs : List α) (fin : Exc) :
    ∀ k, produce_results_go none (okFutures g sched k xs ++ [FItem.exc fin]) =
      { yields := xs.map g, outcome := raiseInGen fin, cleanupRan := false, drained := 0 } := by
  induction xs with
  | nil => intro k; simp [okFutures, produce_results_go]
  | cons a rest ih => intro k; simp [okFutures, produce_results_go, Future.result, ih]

theorem sexec_consume_inputs_ok (g : α → β) (sched : Nat → Nat) (xs : List α) (fin : Exc) :
    ∀ k, sexec_consume_inputs (okSubmit g sched) obsFalse k xs fin =
      okFutures g sched k xs ++ [FItem.exc fin] := by
  induction xs with
  | nil => intro k; simp [sexec_consume_inputs, obsFalse, okFutures]
  | cons a rest ih => intro k; simp [sexec_consume_inputs, obsFalse, okSubmit, okFutures, ih]

theorem sexec_produce_results_go_ok (g : α → β) (sched : Nat → Nat) (xs : List α) (fin : Exc) :
    ∀ k, sexec_produce_results_go none (okFutures g sched k xs ++ [FItem.exc fin]) =
      { yields := xs.map g, outcome := raiseInGen fin, cleanupRan := false, drained := 0 } := by
  induction xs with
  | nil => intro k; simp [okFutures, sexec_produce_results_go]
  | cons a rest ih => intro k; simp [okFutures, sexec_produce_results_go, Future.result, ih]

theorem submit_inputs_failAt (g : α → β) (sched : Nat → Nat) (e fin : Exc) :
    ∀ (xs : List α) (k m : Nat), m < xs.length →
      submit_inputs (failAtSubmit g sched (k + m) e) obsFalse k
          (xs.map ChanItem.arg ++ [ChanItem.exc fin]) =
        { out := okFutures g sched k (xs.take m) ++ [FItem.exc e],
          consumed := xs.length + 1, setCancel := true } := by
  intro xs
  induction xs with
  | nil => intro k m h; simp at h
  | cons a rest ih =>
    intro k m h
    match m with
    | 0 =>
      simp [submit_inputs, obsFalse, failAtSubmit, okFutures, submit_drain_args]
      omega
    | Nat.succ m' =>
      have hne : k ≠ k + (m' + 1) := by omega
      have hsh : k + (m' + 1) = (k + 1) + m' := by omega
      have hm : m' < rest.length := by simpa using Nat.lt_of_succ_lt_succ h
      rw [hsh]
      simp [submit_inputs, obsFalse, failAtSubmit, okFutures,
        if_neg (by omega : ¬ k = k + 1 + m'), ih (k + 1) m' hm]
      omega

/-! Helper facts about the cancel-flag write lists a run can produce. -/

theorem flag_writes_props (x y : Bool) :
    ((cond x [true] [] ++ cond y [true] []).all (fun b => b)) = true ∧
    countTF (false :: (cond x [true] [] ++ cond y [true] [])) = 0 ∧
    countFT (false :: (cond x [true] [] ++ cond y [true] [])) ≤ 1 := by
  cases x <;> cases y <;> decide

theorem flag_write_props (x : Bool) :
    ((cond x [true] []).all (fun b => b)) = true ∧
    countTF (false :: cond x [true] []) = 0 ∧
    countFT (false :: cond x [true] []) ≤ 1 := by
  cases x <;> decide

/-- A failure-free run of the two-queue variant, fully computed. -/
theorem streamMapExec_ok_run (g : α → β) (sched : Nat → Nat) (xs : List α) :
    streamMapExec (okSubmit g sched) xs Exc.stopIteration none =
      { mapYields := xs.map (fun a => some (g a)), outcome := Outcome.normalEnd,
        cancelWrites := [] } := by
  simp [streamMapExec, consume_inputs_ok, submit_inputs_ok, produce_results_go_ok,
    raiseInGen, List.map_map, Function.comp]

/-- A failure-free run of the single-queue variant, fully computed. -/
theorem sexec_streamMap_ok_run (g : α → β) (sched : Nat → Nat) (xs : List α) :
    sexec_streamMap (okSubmit g sched) xs Exc.stopIteration none =
      { mapYields := xs.map (fun a => some (g a)), outcome := Outcome.normalEnd,
        cancelWrites := [] } := by
  simp [sexec_streamMap, sexec_consume_inputs_ok, sexec_produce_results_go_ok,
    raiseInGen, List.map_map, Function.comp]

/-! The claims. -/

/-- Claim C1: for every callable `fn` and input sequences with no
failures (no input error, no submission failure, no task error, no
timeout), the iterator returned by `map` yields exactly the values of
sequential `map(fn, *sequences)`, in the same order, in both variants;
and the whole run is identical under any two backend completion
schedules, so the order in which the backend completes the calls is
irrelevant. -/
theorem C1_order_preservation (g : α → β) (xs : List α) (sched sched' : Nat → Nat) :
    streamMapExec (okSubmit g sched) xs Exc.stopIteration none =
      { mapYields := xs.map (fun a => some (g a)), outcome := Outcome.normalEnd,
        cancelWrites := [] } ∧
    sexec_streamMap (okSubmit g sched) xs Exc.stopIteration none =
      { mapYields := xs.map (fun a => some (g a)), outcome := Outcome.normalEnd,
        cancelWrites := [] } ∧
    streamMapExec (okSubmit g sched) xs Exc.stopIteration none =
      streamMapExec (okSubmit g sched') xs Exc.stopIteration none ∧
    sexec_streamMap (okSubmit g sched) xs Exc.stopIteration none =
      sexec_streamMap (okSubmit g sched') xs Exc.stopIteration none := by
  exact ⟨streamMapExec_ok_run g sched xs, sexec_streamMap_ok_run g sched xs,
    (streamMapExec_ok_run g sched xs).trans (streamMapExec_ok_run g sched' xs).symm,
    (sexec_streamMap_ok_run g sched xs).trans (sexec_streamMap_ok_run g sched' xs).symm⟩

/-- Claim C2: when the input sequences are exhausted without error, the
end-of-input terminal marker (StopIteration) dequeued by the result
stage ends the returned sequence normally — no error of any kind
reaches the caller — in both variants, both at the level of the result
loop itself and for the whole composed `map` run. -/
theorem C2_end_of_input_terminates_normally (g : α → β) (sched : Nat → Nat) (xs : List α) :
    (produce_results_go none
        (okFutures g sched 0 xs ++ [FItem.exc Exc.stopIteration])).outcome =
      Outcome.normalEnd ∧
    (sexec_produce_results_go none
        (okFutures g sched 0 xs ++ [FItem.exc Exc.stopIteration])).outcome =
      Outcome.normalEnd ∧
    (streamMapExec (okSubmit g sched) xs Exc.stopIteration none).outcome =
      Outcome.normalEnd ∧
    (sexec_streamMap (okSubmit g sched) xs Exc.stopIteration none).outcome =
      Outcome.normalEnd := by
  refine ⟨?_, ?_, ?_, ?_⟩
  · simp [produce_results_go_ok, raiseInGen]
  · simp [sexec_produce_results_go_ok, raiseInGen]
  · rw [streamMapExec_ok_run]
  · rw [sexec_streamMap_ok_run]

/-- Claim C3 counterexample: with `buffer_size=5` and `chunksize=10` the
chunking adapter converts the buffer to `5 // 10 = 0` chunks — the
`max(1, chunksize)` in the source clamps the divisor, not the quotient,
so the converted value is below 1, and the base map then rejects it
with ValueError. -/
theorem C3_counterexample :
    processMapBuffer (some 5) 10 = Except.ok (some 0) ∧ ((0 : Int) < 1) ∧
    sexecMapBuffer (some 0) = Except.error ("buffer_size must be a positive number") := by
  refine ⟨by decide, by decide, by decide⟩

/-- Claim C3 (amended): for `chunksize ≥ 1` and positive `buffer_size`,
the adapter hands the base pipeline `floor(buffer_size / chunksize)`
with no minimum applied: when the quotient is 0 the base map raises
ValueError, and only a quotient of at least 1 is accepted. -/
theorem C3_chunk_buffer_conversion (b cs : Int) (hcs : 1 ≤ cs) (hb : 1 ≤ b) :
    processMapBuffer (some b) cs = Except.ok (some (Int.fdiv b cs)) ∧
    (Int.fdiv b cs ≤ 0 →
      sexecMapBuffer (some (Int.fdiv b cs)) =
        Except.error ("buffer_size must be a positive number")) ∧
    (1 ≤ Int.fdiv b cs →
      sexecMapBuffer (some (Int.fdiv b cs)) = Except.ok (Int.fdiv b cs)) := by
  have hmax : max 1 cs = cs := max_eq_right hcs
  refine ⟨?_, ?_, ?_⟩
  · simp [processMapBuffer, hmax, if_neg (by omega : ¬ cs < 1)]
  · intro h
    simp [sexecMapBuffer, if_pos h]
  · intro h
    simp [sexecMapBuffer, if_neg (by omega : ¬ Int.fdiv b cs ≤ 0)]

/-- Claim C3 witness: the amended statement instantiated at
`buffer_size=5`, `chunksize=10`. -/
theorem C3_chunk_buffer_conversion_witness :
    (1 : Int) ≤ 10 ∧ (1 : Int) ≤ 5 ∧
    (processMapBuffer (some 5) 10 = Except.ok (some (Int.fdiv 5 10)) ∧
     (Int.fdiv 5 10 ≤ 0 →
       sexecMapBuffer (some (Int.fdiv 5 10)) =
         Except.error ("buffer_size must be a positive number")) ∧
     (1 ≤ Int.fdiv 5 10 →
       sexecMapBuffer (some (Int.fdiv 5 10)) = Except.ok (Int.fdiv 5 10))) :=
  ⟨by decide, by decide, C3_chunk_buffer_conversion 5 10 (by decide) (by decide)⟩

/-- Claim C4: in the two-queue variant, when submitting call `m` raises
`e`, the submission stage sets the cancellation flag, writes `e` as the
terminal marker downstream after the `m` futures already submitted,
stops submitting, and goes on reading the input channel — discarding
payloads — until it has read the channel's own terminal marker (it
consumes all `xs.length + 1` items of the channel, terminal marker
included). -/
theorem C4_submission_failure (g : α → β) (sched : Nat → Nat) (e fin : Exc)
    (xs : List α) (m : Nat) (h : m < xs.length) :
    submit_inputs (failAtSubmit g sched m e) obsFalse 0
        (xs.map ChanItem.arg ++ [ChanItem.exc fin]) =
      { out := okFutures g sched 0 (xs.take m) ++ [FItem.exc e],
        consumed := xs.length + 1, setCancel := true } ∧
    xs.length + 1 = (xs.map ChanItem.arg ++ [ChanItem.exc fin]).length := by
  constructor
  · have := submit_inputs_failAt g sched e fin xs 0 m h
    simpa using this
  · simp

/-- Claim C4 witness: submission fails at call 1 of 3. -/
theorem C4_submission_failure_witness :
    1 < ([10, 20, 30] : List Nat).length ∧
    (submit_inputs (failAtSubmit (fun a : Nat => a + 1) (fun _ => 0) 1 (Exc.code 7))
        obsFalse 0
        (([10, 20, 30] : List Nat).map ChanItem.arg ++ [ChanItem.exc Exc.stopIteration]) =
      { out := okFutures (fun a : Nat => a + 1) (fun _ => 0) 0
            (([10, 20, 30] : List Nat).take 1) ++ [FItem.exc (Exc.code 7)],
        consumed := ([10, 20, 30] : List Nat).length + 1, setCancel := true } ∧
     ([10, 20, 30] : List Nat).length + 1 =
       (([10, 20, 30] : List Nat).map ChanItem.arg ++ [ChanItem.exc Exc.stopIteration]).length) :=
  ⟨by decide,
   C4_submission_failure (fun a : Nat => a + 1) (fun _ => 0) (Exc.code 7)
     Exc.stopIteration [10, 20, 30] 1 (by decide)⟩

/-- Claim C5 counterexample: the executors cleanup (lines 107-116),
invoked while the cancellation flag is already set — a reachable
situation, since `submit_inputs` sets the flag on a submission failure
(line 99) before the result stage can later fail and call cleanup —
does not return immediately: it still drains the future-handle channel,
cancelling the buffered future, and still raises. -/
theorem C5_counterexample :
    (exec_cleanup (Exc.code 2)
        { cancel := true,
          fbuf := [FItem.fut { val := Except.ok (5 : Nat), doneAt := 0 },
                   FItem.exc Exc.stopIteration] }).cancelled = 1 ∧
    (exec_cleanup (Exc.code 2)
        { cancel := true,
          fbuf := [FItem.fut { val := Except.ok (5 : Nat), doneAt := 0 },
                   FItem.exc Exc.stopIteration] }).raisedExc = some (Exc.code 2) := by
  decide

/-- Claim C5 (amended): the streamexecutors cleanup is idempotent —
when the cancellation flag is already set it returns at once, draining
nothing and raising nothing; and after one cleanup has run on a clear
flag, a second invocation (any lock outcome, any pending exception)
performs no further cancellation pass, raises nothing, and leaves the
state fixed, the flag now being set.  The executors cleanup has no flag
guard: it behaves identically whether or not the flag is already set,
always performs the full drain, and always re-raises its exception. -/
theorem C5_cleanup_idempotent {β : Type} (s t u : CleanupView β) (l l2 : Bool)
    (e1 e2 : Option Exc) (x : Exc) (hs : s.cancel = true) (ht : t.cancel = false) :
    sexec_cleanup l e1 s = { state := s, cancelled := 0, raisedExc := none } ∧
    sexec_cleanup l2 e2 (sexec_cleanup true e1 t).state =
      { state := (sexec_cleanup true e1 t).state, cancelled := 0, raisedExc := none } ∧
    (sexec_cleanup true e1 t).state.cancel = true ∧
    exec_cleanup x u = exec_cleanup x { cancel := false, fbuf := u.fbuf } ∧
    (exec_cleanup x u).raisedExc = some x ∧
    (exec_cleanup x u).cancelled = (drainCancel u.fbuf).1 := by
  refine ⟨?_, ?_, ?_, ?_, ?_, ?_⟩
  · simp [sexec_cleanup, hs]
  · simp [sexec_cleanup, ht]
  · simp [sexec_cleanup, ht]
  · simp [exec_cleanup]
  · simp [exec_cleanup]
  · simp [exec_cleanup]

/-- A concrete cleanup state whose cancellation flag is already set. -/
def cvSet : CleanupView Nat := { cancel := true, fbuf := [] }

/-- A concrete cleanup state with a clear flag and a future still
buffered ahead of the terminal marker. -/
def cvClear : CleanupView Nat :=
  { cancel := false,
    fbuf := [FItem.fut { val := Except.ok 5, doneAt := 0 }, FItem.exc Exc.stopIteration] }

/-- A concrete flag-already-set cleanup state with a future still
buffered ahead of the terminal marker. -/
def cvSetFut : CleanupView Nat :=
  { cancel := true,
    fbuf := [FItem.fut { val := Except.ok 5, doneAt := 0 }, FItem.exc Exc.stopIteration] }

/-- Claim C5 witness: the amended statement at concrete states. -/
theorem C5_cleanup_idempotent_witness :
    sexec_cleanup true (some (Exc.code 3)) cvSet =
      { state := cvSet, cancelled := 0, raisedExc := none } ∧
    sexec_cleanup false none (sexec_cleanup true (some (Exc.code 3)) cvClear).state =
      { state := (sexec_cleanup true (some (Exc.code 3)) cvClear).state, cancelled := 0,
        raisedExc := none } ∧
    (sexec_cleanup true (some (Exc.code 3)) cvClear).state.cancel = true ∧
    exec_cleanup (Exc.code 2) cvSetFut =
      exec_cleanup (Exc.code 2) { cancel := false, fbuf := cvSetFut.fbuf } ∧
    (exec_cleanup (Exc.code 2) cvSetFut).raisedExc = some (Exc.code 2) ∧
    (exec_cleanup (Exc.code 2) cvSetFut).cancelled = (drainCancel cvSetFut.fbuf).1 :=
  C5_cleanup_idempotent cvSet cvClear cvSetFut true false (some (Exc.code 3)) none
    (Exc.code 2) rfl rfl

/-- Claim C6 counterexample: in the streamexecutors code path,
`buffer_size=0` does not request an unbounded buffer — it raises
ValueError. -/
theorem C6_counterexample :
    sexecMapBuffer (some 0) = Except.error ("buffer_size must be a positive number") := by
  decide

/-- Claim C6 (amended): the two code paths disagree — in the executors
variant both `None` (mapped to -1) and 0 give an unbounded input
channel and no error, while in the streamexecutors variant only `None`
is unbounded and `buffer_size=0` raises
ValueError('buffer_size must be a positive number'). -/
theorem C6_buffer_size_sentinels :
    execMapBuffer none = -1 ∧
    queueUnbounded (execMapBuffer none) = true ∧
    execMapBuffer (some 0) = 0 ∧
    queueUnbounded (execMapBuffer (some 0)) = true ∧
    sexecMapBuffer none = Except.ok (-1) ∧
    queueUnbounded (-1) = true ∧
    sexecMapBuffer (some 0) = Except.error ("buffer_size must be a positive number") := by
  refine ⟨by decide, by decide, by decide, by decide, by decide, by decide, by decide⟩

/-- Claim C7 counterexample: a fully successful `map` invocation (two
inputs, every submission and task succeeding, caller iterating to the
end) performs no false-to-true transition of the cancellation flag at
all, so the flag does not transition "exactly once per map
invocation". -/
theorem C7_counterexample :
    countFT (cancelHistory
      (streamMapExec (okSubmit (fun a : Nat => a + 1) (fun _ => 0)) [1, 2]
        Exc.stopIteration none)) ≠ 1 := by
  decide

/-- Claim C7 (amended): the cancellation flag starts false; every
assignment made during a run writes `true`, so the flag never
transitions true-to-false and transitions false-to-true at most once
per map invocation (not exactly once — failure-free runs never set it);
and in the streamexecutors variant the assignment is made only while
holding the cancellation lock — `cleanup` without the lock changes
nothing. -/
theorem C7_cancel_flag {γ : Type} (submit : Nat → α → Except Exc (Future β))
    (xs : List α) (fin : Exc) (d : Option Nat) (s : CleanupView γ) (e : Option Exc) :
    (cancelHistory (streamMapExec submit xs fin d)).head? = some false ∧
    ((streamMapExec submit xs fin d).cancelWrites.all (fun b => b)) = true ∧
    countTF (cancelHistory (streamMapExec submit xs fin d)) = 0 ∧
    countFT (cancelHistory (streamMapExec submit xs fin d)) ≤ 1 ∧
    ((sexec_streamMap submit xs fin d).cancelWrites.all (fun b => b)) = true ∧
    countTF (cancelHistory (sexec_streamMap submit xs fin d)) = 0 ∧
    countFT (cancelHistory (sexec_streamMap submit xs fin d)) ≤ 1 ∧
    sexec_cleanup false e s = { state := s, cancelled := 0, raisedExc := none } := by
  refine ⟨rfl, ?_, ?_, ?_, ?_, ?_, ?_, ?_⟩
  · exact (flag_writes_props _ _).1
  · exact (flag_writes_props _ _).2.1
  · exact (flag_writes_props _ _).2.2
  · exact (flag_write_props _).1
  · exact (flag_write_props _).2.1
  · exact (flag_write_props _).2.2
  · simp [sexec_cleanup]

/-- Claim C8 counterexample: in the streamexecutors variant the
future-handle channel capacity is the user-configurable `buffer_size`
itself, not a fixed constant — two different buffer sizes give two
different capacities. -/
theorem C8_counterexample :
    sexecFutureBufferCapacity (some 10000) = Except.ok 10000 ∧
    sexecFutureBufferCapacity (some 20000) = Except.ok 20000 ∧
    ((10000 : Int) ≠ 20000) := by
  refine ⟨by decide, by decide, by decide⟩

/-- Claim C8 (amended): in the executors variant the future-handle
channel has the fixed capacity 10, independent of `buffer_size`; in the
streamexecutors variant the single future channel's capacity equals the
validated `buffer_size`. -/
theorem C8_future_channel_capacity (bs bs' : Option Int) (b : Int) (hb : 0 < b) :
    execFuturesBufferCapacity bs = 10 ∧
    execFuturesBufferCapacity bs = execFuturesBufferCapacity bs' ∧
    sexecFutureBufferCapacity (some b) = Except.ok b := by
  refine ⟨rfl, rfl, ?_⟩
  simp only [sexecFutureBufferCapacity, sexecMapBuffer]
  rw [if_neg (by omega : ¬ b ≤ 0)]

/-- Claim C8 witness: the amended statement at concrete buffer sizes. -/
theorem C8_future_channel_capacity_witness :
    (0 : Int) < 7 ∧
    (execFuturesBufferCapacity none = 10 ∧
     execFuturesBufferCapacity none = execFuturesBufferCapacity (some 3) ∧
     sexecFutureBufferCapacity (some 7) = Except.ok 7) :=
  ⟨by decide, C8_future_channel_capacity none (some 3) 7 (by decide)⟩

/-- Claim C9: `map` consumes the priming dummy `None` before returning,
so the iterator handed to the caller never yields the dummy (in any
run, whatever the submit oracle does), and on a failure-free run with a
nonempty input its first element is `fn` applied to the first argument
tuple — in both variants. -/
theorem C9_dummy_consumed (g : α → β) (x : α) (rest : List α) (sched : Nat → Nat)
    (submit : Nat → α → Except Exc (Future β)) (xs : List α) (fin : Exc) (d : Option Nat) :
    (streamMapExec (okSubmit g sched) (x :: rest) Exc.stopIteration none).mapYields.head? =
      some (some (g x)) ∧
    (sexec_streamMap (okSubmit g sched) (x :: rest) Exc.stopIteration none).mapYields.head? =
      some (some (g x)) ∧
    Option.none ∉ (streamMapExec submit xs fin d).mapYields ∧
    Option.none ∉ (sexec_streamMap submit xs fin d).mapYields := by
  refine ⟨?_, ?_, ?_, ?_⟩
  · rw [streamMapExec_ok_run]; simp
  · rw [sexec_streamMap_ok_run]; simp
  · simp [streamMapExec]
  · simp [sexec_streamMap]

/-- Claim C10: when `fn` is not callable, the streamexecutors `map`
raises TypeError synchronously: the setup path performs no effect at
all — in particular it neither starts the worker thread nor reads any
element of the input sequences — whatever `buffer_size` was passed. -/
theorem C10_uncallable_fn_typeerror (bs : Option Int) :
    sexecMapSetup false bs = ([], some ("fn argument must be a callable")) ∧
    SetupEffect.threadStarted ∉ (sexecMapSetup false bs).1 ∧
    SetupEffect.inputElementRead ∉ (sexecMapSetup false bs).1 := by
  refine ⟨rfl, ?_, ?_⟩ <;> simp [sexecMapSetup]

end Executors
